import Mathlib

/-!
Verification of `src/database/setup-via-lambda.py` from the
transplant-wizard repository.

The script's only real logic is `execute_statement`, which forwards a SQL
string and hard-coded resource identifiers to the boto3 `rds-data` client
and converts any raised exception into an `error` dictionary; `main`
unconditionally prints a fixed block of status lines and returns `True`.

The embedding passes an explicit `World` state recording the two observable
effects of a run: the requests issued to the service client and the lines
printed to standard output.  The behaviour of the external boto3 client is
a parameter (`Client`): on a request it either returns a response payload
or raises an exception carrying a message string.
-/

namespace TransplantWizard

/-- A JSON-like dictionary as exchanged with the RDS Data API, modelled as
an association list.  The only dictionary the script itself builds is the
string-valued failure dictionary, and service payloads are opaque
pass-through values, so string-valued entries suffice. -/
abbrev Dict := List (String × String)

/-- The keyword arguments the script passes to `client.execute_statement`
(source lines 24-29). -/
structure Request where
  resourceArn : String
  secretArn : String
  database : String
  sql : String
deriving DecidableEq

/-- Behaviour of the boto3 rds-data client: on a request it either returns
a response payload (`Except.ok`) or raises an exception whose message is a
string (`Except.error`), mirroring `str(e)` in the source. -/
abbrev Client := Request → Except String Dict

/-- Observable effects of one run of the script: the requests issued to the
service client, in order, and the lines printed to standard output. -/
structure World where
  calls : List Request
  output : List String
deriving DecidableEq

/-- The state at process start: no service calls made, nothing printed. -/
def World.init : World := { calls := [], output := [] }

/-- One `print(s)` statement: appends the printed line to the output. -/
def printLine (s : String) (w : World) : World :=
  { w with output := w.output ++ [s] }

/-- Issuing one request to the service client: the request is recorded in
the call trace and the client's behaviour on it is observed. -/
def callService (client : Client) (req : Request) (w : World) :
    Except String Dict × World :=
  (client req, { w with calls := w.calls ++ [req] })

/-- Source line 13. -/
def DB_CLUSTER_ARN : String :=
  "arn:aws:rds:us-east-1:147997160304:db:transplant-platform-db"

/-- Source line 14. -/
def SECRET_ARN : String :=
  "arn:aws:secretsmanager:us-east-1:147997160304:secret:transplant-platform-db-secret"

/-- Source line 15. -/
def DATABASE_NAME : String := "transplant_platform"

/-- The request built from the keyword arguments at source lines 25-28. -/
def mkRequest (sql database : String) : Request :=
  { resourceArn := DB_CLUSTER_ARN
    secretArn := SECRET_ARN
    database := database
    sql := sql }

/-- Source lines 21-33.  `execute_statement(client, sql, database="postgres")`
calls the client once inside a `try`; a returned payload is passed through
unchanged, and a raised exception `e` is caught, printed, and converted to
the dictionary `{"error": str(e)}`. -/
def execute_statement (client : Client) (sql : String)
    (database : String := "postgres") : World → Dict × World := fun w =>
  match callService client (mkRequest sql database) w with
  | (Except.ok response, w1) => (response, w1)
  | (Except.error e, w1) =>
      (([("error", e)] : Dict), printLine ("Error executing SQL: " ++ e) w1)

/-- A run of `execute_statement` from process start with `database` given. -/
def runExecute (client : Client) (sql database : String) : Dict × World :=
  execute_statement client sql database World.init

/-- A run of `execute_statement` from process start with the `database`
argument omitted, so that the source's default parameter value is used. -/
def runExecuteDefault (client : Client) (sql : String) : Dict × World :=
  (execute_statement client sql : World → Dict × World) World.init

/-- Source lines 35-72.  `main()` prints a fixed block of status lines and
returns `True`.  Its body never mentions the service client; the `client`
parameter stands for whatever remote-service behaviour the environment
holds, to express that `main` is independent of it. -/
def main (_client : Client) : World → Bool × World := fun w =>
  let w := printLine ("Setting up database using alternative method...") w
  let w := printLine ("Note: This requires Aurora Serverless or Data API enabled") w
  let w := printLine ("For regular RDS instances, we\x27ll need to set up a VPN or bastion host") w
  let w := printLine ("\n=== Database Setup Summary ===") w
  let w := printLine ("✅ Created comprehensive database schema") w
  let w := printLine ("✅ Created seed data with all required information") w
  let w := printLine ("✅ Created automated setup scripts") w
  let w := printLine ("❌ Network connectivity issue prevents direct setup") w
  let w := printLine ("\n=== Next Steps ===") w
  let w := printLine ("1. Use AWS Systems Manager Session Manager to connect through VPC") w
  let w := printLine ("2. Set up a bastion host in the public subnet") w
  let w := printLine ("3. Use AWS Lambda in the VPC to execute the SQL") w
  let w := printLine ("4. Temporarily create a public subnet route (not recommended for production)") w
  let w := printLine ("\n=== Database Schema Created ===") w
  let w := printLine ("- Users table (unified for patients and social workers)") w
  let w := printLine ("- Patients table with PHI fields") w
  let w := printLine ("- Social workers table with clinic assignments") w
  let w := printLine ("- Dialysis clinics (3 clinics as specified)") w
  let w := printLine ("- Transplant centers (10 centers with exact data from requirements)") w
  let w := printLine ("- ROI consent tracking with digital signatures") w
  let w := printLine ("- Patient referrals (up to 3 transplant center selections)") w
  let w := printLine ("- Real-time notifications for social workers") w
  let w := printLine ("- Comprehensive audit logging for HIPAA compliance") w
  let w := printLine ("- User sessions for security tracking") w
  let w := printLine ("\n=== Seed Data Ready ===") w
  let w := printLine ("- 3 Dialysis clinics: Metro Health, Lakeside Renal, Grand River") w
  let w := printLine ("- 6 Social workers (2 per clinic)") w
  let w := printLine ("- 10 Transplant centers with exact addresses and wait times") w
  let w := printLine ("- System configuration data") w
  let w := printLine ("- Database views and functions for common operations") w
  (true, w)

/-- Source lines 74-75: the `__main__` guard runs `main()` from process
start. -/
def runMain (client : Client) : Bool × World :=
  main client World.init

/-- Helper: when the client returns a payload, `execute_statement` returns
it with exactly one recorded call and no printed output. -/
theorem exec_ok_eq (client : Client) (sql database : String) (p : Dict)
    (h : client (mkRequest sql database) = Except.ok p) :
    execute_statement client sql database World.init =
      (p, { calls := [mkRequest sql database], output := [] }) := by
  simp [execute_statement, callService, World.init, h]

/-- Helper: when the client raises with message `e`, `execute_statement`
returns the error dictionary, records exactly one call, and prints the
error line. -/
theorem exec_error_eq (client : Client) (sql database : String) (e : String)
    (h : client (mkRequest sql database) = Except.error e) :
    execute_statement client sql database World.init =
      ([("error", e)],
        { calls := [mkRequest sql database]
          output := ["Error executing SQL: " ++ e] }) := by
  simp [execute_statement, callService, printLine, World.init, h]

/-- Claim C1: for every SQL string, database name, and behaviour of the
underlying service client (payload or exception), `execute_statement`
returns exactly one result, which is either the success variant carrying
the payload or the failure variant; being a total function of the client
behaviour, it never propagates an exception to its caller. -/
theorem execute_statement_exactly_one_result (client : Client)
    (sql database : String) :
    ((∃ p, client (mkRequest sql database) = Except.ok p ∧
        (runExecute client sql database).1 = p) ∧
      ¬ ∃ e, client (mkRequest sql database) = Except.error e) ∨
    ((∃ e, client (mkRequest sql database) = Except.error e ∧
        (runExecute client sql database).1 = [("error", e)]) ∧
      ¬ ∃ p, client (mkRequest sql database) = Except.ok p) := by
  cases h : client (mkRequest sql database) with
  | ok p =>
      left
      refine ⟨⟨p, rfl, ?_⟩, ?_⟩
      · simp [runExecute, exec_ok_eq client sql database p h]
      · rintro ⟨e, he⟩
        exact Except.noConfusion he
  | error e =>
      right
      refine ⟨⟨e, rfl, ?_⟩, ?_⟩
      · simp [runExecute, exec_error_eq client sql database e h]
      · rintro ⟨p, hp⟩
        exact Except.noConfusion hp

/-- Claim C2 fails on the code: with the `database` argument omitted, the
forwarded request carries the literal default `"postgres"` from the
parameter list at source line 21, which is not the value of
`DATABASE_NAME` (`"transplant_platform"`, which the script never uses). -/
theorem default_database_counterexample :
    ((runExecuteDefault (fun _ => Except.ok []) ("SELECT 1")).2.calls.map
        Request.database = ["postgres"]) ∧
    "postgres" ≠ DATABASE_NAME := by
  constructor
  · rfl
  · decide

/-- Claim C2 (amended): when `execute_statement` is called with the
`database` argument omitted, the request forwarded to the underlying
service carries the literal default database name `"postgres"`. -/
theorem default_database_is_postgres (client : Client) (sql : String) :
    (runExecuteDefault client sql).2.calls.map Request.database
      = ["postgres"] := by
  cases h : client (mkRequest sql "postgres") with
  | ok p =>
      simp [runExecuteDefault, exec_ok_eq client sql "postgres" p h, mkRequest]
  | error e =>
      simp [runExecuteDefault, exec_error_eq client sql "postgres" e h, mkRequest]

/-- Claim C3: whenever the underlying service call returns a payload `p`,
`execute_statement` returns the success variant carrying `p` unchanged. -/
theorem execute_statement_passthrough (client : Client)
    (sql database : String) (p : Dict)
    (h : client (mkRequest sql database) = Except.ok p) :
    (runExecute client sql database).1 = p := by
  simp [runExecute, exec_ok_eq client sql database p h]

/-- Witness for claim C3 at a concrete client, SQL string and payload. -/
theorem execute_statement_passthrough_witness :
    (runExecute (fun _ => Except.ok [("records", "1")]) ("SELECT 1")
      ("postgres")).1 = [("records", "1")] :=
  execute_statement_passthrough (fun _ => Except.ok [("records", "1")])
    ("SELECT 1") ("postgres") [("records", "1")] rfl

/-- Claim C4: whenever the underlying service call raises an exception
with message `M`, `execute_statement` returns the failure variant, and the
textual description stored under the `"error"` key contains `M`. -/
theorem execute_statement_error_captured (client : Client)
    (sql database M : String)
    (h : client (mkRequest sql database) = Except.error M) :
    (runExecute client sql database).1 = [("error", M)] ∧
    ∃ s t, ((runExecute client sql database).1).lookup "error"
      = some (s ++ M ++ t) := by
  have hr : (runExecute client sql database).1 = [("error", M)] := by
    simp [runExecute, exec_error_eq client sql database M h]
  refine ⟨hr, "", "", ?_⟩
  rw [hr]
  simp

/-- Witness for claim C4 at a concrete client and exception message. -/
theorem execute_statement_error_captured_witness :
    (runExecute (fun _ => Except.error "boom") ("SELECT 1") ("postgres")).1
        = [("error", "boom")] ∧
    ∃ s t, ((runExecute (fun _ => Except.error "boom") ("SELECT 1")
        ("postgres")).1).lookup "error" = some (s ++ "boom" ++ t) :=
  execute_statement_error_captured (fun _ => Except.error "boom")
    ("SELECT 1") ("postgres") "boom" rfl

/-- Claim C5: every request forwarded by `execute_statement` carries the
fixed cluster identifier `DB_CLUSTER_ARN` and the fixed secret identifier
`SECRET_ARN`, whatever the arguments and client behaviour are. -/
theorem execute_statement_fixed_identifiers (client : Client)
    (sql database : String) :
    (runExecute client sql database).2.calls.map Request.resourceArn
        = [DB_CLUSTER_ARN] ∧
    (runExecute client sql database).2.calls.map Request.secretArn
        = [SECRET_ARN] := by
  cases h : client (mkRequest sql database) with
  | ok p =>
      simp [runExecute, exec_ok_eq client sql database p h, mkRequest]
  | error e =>
      simp [runExecute, exec_error_eq client sql database e h, mkRequest]

/-- Claim C6: for every environment (client behaviour), `main` returns the
success value `True`, prints a non-empty sequence of lines, and that
sequence is the same fixed one printed in a reference environment. -/
theorem main_returns_success_and_prints (client : Client) :
    (runMain client).1 = true ∧
    (runMain client).2.output ≠ [] ∧
    (runMain client).2.output
      = (runMain (fun _ => Except.ok [])).2.output := by
  refine ⟨rfl, ?_, rfl⟩
  intro hc
  exact List.noConfusion hc

/-- Claim C7: the lines printed by the entry point are identical across
any two runs, whatever the behaviour of the remote execution service, and
the entry point issues no request to the service at all. -/
theorem main_output_independent_of_service (cA cB : Client) :
    (runMain cA).2.output = (runMain cB).2.output ∧
    (runMain cA).2.calls = [] :=
  ⟨rfl, rfl⟩

/-- Claim C8: `execute_statement` performs no local validation: for every
string `sql` (the empty string included) and every string `database`, the
single forwarded request carries them exactly as given. -/
theorem execute_statement_forwards_inputs_verbatim (client : Client)
    (sql database : String) :
    (runExecute client sql database).2.calls = [mkRequest sql database] ∧
    (mkRequest sql database).sql = sql ∧
    (mkRequest sql database).database = database := by
  refine ⟨?_, rfl, rfl⟩
  cases h : client (mkRequest sql database) with
  | ok p => simp [runExecute, exec_ok_eq client sql database p h]
  | error e => simp [runExecute, exec_error_eq client sql database e h]

/-- Claim C9: each invocation of `execute_statement` issues exactly one
request to the underlying service, on success as on failure: no retry, and
never zero calls. -/
theorem execute_statement_calls_exactly_once (client : Client)
    (sql database : String) :
    (runExecute client sql database).2.calls.length = 1 := by
  cases h : client (mkRequest sql database) with
  | ok p => simp [runExecute, exec_ok_eq client sql database p h]
  | error e => simp [runExecute, exec_error_eq client sql database e h]

/-- Claim C10: the failure variant is the dictionary whose sole key is
`"error"` mapping to the exception message, and a success whose payload
itself is such a dictionary yields a result identical to the failure one:
the two outcomes are indistinguishable to the caller. -/
theorem failure_dict_not_disjoint_from_success (e sql database : String) :
    (runExecute (fun _ => Except.error e) sql database).1 = [("error", e)] ∧
    (runExecute (fun _ => Except.ok [("error", e)]) sql database).1
      = (runExecute (fun _ => Except.error e) sql database).1 :=
  ⟨rfl, rfl⟩

end TransplantWizard
